import Mathlib

/-!
Shallow embedding of `amethyst_core::transform::components::transform`
(file `src/amethyst_core/src/transform/components/transform.rs`).

The source is generic over an opaque scalar `Float`; the embedding models the
scalar as `ℝ` (the claims about the algebra are stated "under exact
arithmetic").  Vectors, quaternions and the isometry are translated
structurally from the `nalgebra` representations the source manipulates;
4x4 homogeneous matrices are `Matrix (Fin 4) (Fin 4) ℝ`.
-/

namespace Amethyst

noncomputable section

/-- A 3-component vector (`nalgebra::Vector3<Float>`). -/
structure Vector3 where
  x : ℝ
  y : ℝ
  z : ℝ

instance : Add Vector3 :=
  ⟨fun a b => ⟨a.x + b.x, a.y + b.y, a.z + b.z⟩⟩

instance : Neg Vector3 :=
  ⟨fun a => ⟨-a.x, -a.y, -a.z⟩⟩

instance : Sub Vector3 :=
  ⟨fun a b => ⟨a.x - b.x, a.y - b.y, a.z - b.z⟩⟩

instance : SMul ℝ Vector3 :=
  ⟨fun c a => ⟨c * a.x, c * a.y, c * a.z⟩⟩

/-- Componentwise product (`Vector3::component_mul`). -/
def Vector3.component_mul (a b : Vector3) : Vector3 :=
  ⟨a.x * b.x, a.y * b.y, a.z * b.z⟩

/-- Cross product of 3-vectors (`Vector3::cross`). -/
def Vector3.cross (a b : Vector3) : Vector3 :=
  ⟨a.y * b.z - a.z * b.y, a.z * b.x - a.x * b.z, a.x * b.y - a.y * b.x⟩

/-- The canonical x axis (`Vector3::x_axis()`). -/
def Vector3.x_axis : Vector3 := ⟨1, 0, 0⟩

/-- The canonical y axis (`Vector3::y_axis()`). -/
def Vector3.y_axis : Vector3 := ⟨0, 1, 0⟩

/-- The canonical z axis (`Vector3::z_axis()`). -/
def Vector3.z_axis : Vector3 := ⟨0, 0, 1⟩

/-- A quaternion `w + x i + y j + z k` (`nalgebra::Quaternion<Float>`;
`Quaternion::new(w, x, y, z)` takes the scalar part first, while the stored
coordinate vector `coords` is ordered `(x, y, z, w)`). -/
structure Quaternion where
  w : ℝ
  x : ℝ
  y : ℝ
  z : ℝ

/-- Hamilton product of quaternions (the `Mul` of `nalgebra` quaternions). -/
def Quaternion.mul (a b : Quaternion) : Quaternion :=
  ⟨a.w * b.w - a.x * b.x - a.y * b.y - a.z * b.z,
   a.w * b.x + a.x * b.w + a.y * b.z - a.z * b.y,
   a.w * b.y + a.y * b.w + a.z * b.x - a.x * b.z,
   a.w * b.z + a.z * b.w + a.x * b.y - a.y * b.x⟩

instance : Mul Quaternion := ⟨Quaternion.mul⟩

instance : Neg Quaternion :=
  ⟨fun q => ⟨-q.w, -q.x, -q.y, -q.z⟩⟩

/-- Quaternion conjugate; `UnitQuaternion::inverse` is exactly conjugation. -/
def Quaternion.conjugate (q : Quaternion) : Quaternion :=
  ⟨q.w, -q.x, -q.y, -q.z⟩

/-- The identity quaternion (`UnitQuaternion::identity()`). -/
def Quaternion.id : Quaternion := ⟨1, 0, 0, 0⟩

/-- Squared norm of a quaternion. -/
def Quaternion.normSq (q : Quaternion) : ℝ :=
  q.w ^ 2 + q.x ^ 2 + q.y ^ 2 + q.z ^ 2

/-- `Unit::new_normalize` on a quaternion: divide every coordinate by the
euclidean norm. -/
def Quaternion.normalize (q : Quaternion) : Quaternion :=
  ⟨q.w / Real.sqrt q.normSq, q.x / Real.sqrt q.normSq,
   q.y / Real.sqrt q.normSq, q.z / Real.sqrt q.normSq⟩

/-- The imaginary (vector) part of a quaternion. -/
def Quaternion.im (q : Quaternion) : Vector3 := ⟨q.x, q.y, q.z⟩

/-- Rotation of a vector by a (unit) quaternion, exactly as `nalgebra`
implements `UnitQuaternion * Vector3`:
`t = 2 * (im q × v); result = w * t + im q × t + v`. -/
def rotateVec (q : Quaternion) (v : Vector3) : Vector3 :=
  q.w • ((2 : ℝ) • q.im.cross v) +
    q.im.cross ((2 : ℝ) • q.im.cross v) + v

@[ext] theorem Vector3.ext3 {a b : Vector3} (hx : a.x = b.x) (hy : a.y = b.y)
    (hz : a.z = b.z) : a = b := by
  cases a
  cases b
  simp only [Vector3.mk.injEq]
  exact ⟨hx, hy, hz⟩

@[ext] theorem Quaternion.ext4 {a b : Quaternion} (hw : a.w = b.w)
    (hx : a.x = b.x) (hy : a.y = b.y) (hz : a.z = b.z) : a = b := by
  cases a
  cases b
  simp only [Quaternion.mk.injEq]
  exact ⟨hw, hx, hy, hz⟩

@[simp] theorem Vector3.add_x (a b : Vector3) : (a + b).x = a.x + b.x := rfl

@[simp] theorem Vector3.add_y (a b : Vector3) : (a + b).y = a.y + b.y := rfl

@[simp] theorem Vector3.add_z (a b : Vector3) : (a + b).z = a.z + b.z := rfl

@[simp] theorem Vector3.neg_vx (a : Vector3) : (-a).x = -a.x := rfl

@[simp] theorem Vector3.neg_vy (a : Vector3) : (-a).y = -a.y := rfl

@[simp] theorem Vector3.neg_vz (a : Vector3) : (-a).z = -a.z := rfl

@[simp] theorem Vector3.sub_x (a b : Vector3) : (a - b).x = a.x - b.x := rfl

@[simp] theorem Vector3.sub_y (a b : Vector3) : (a - b).y = a.y - b.y := rfl

@[simp] theorem Vector3.sub_z (a b : Vector3) : (a - b).z = a.z - b.z := rfl

@[simp] theorem Vector3.smul_x (c : ℝ) (a : Vector3) : (c • a).x = c * a.x :=
  rfl

@[simp] theorem Vector3.smul_y (c : ℝ) (a : Vector3) : (c • a).y = c * a.y :=
  rfl

@[simp] theorem Vector3.smul_z (c : ℝ) (a : Vector3) : (c • a).z = c * a.z :=
  rfl

@[simp] theorem Vector3.component_mul_x (a b : Vector3) :
    (a.component_mul b).x = a.x * b.x := rfl

@[simp] theorem Vector3.component_mul_y (a b : Vector3) :
    (a.component_mul b).y = a.y * b.y := rfl

@[simp] theorem Vector3.component_mul_z (a b : Vector3) :
    (a.component_mul b).z = a.z * b.z := rfl

@[simp] theorem Vector3.cross_x (a b : Vector3) :
    (a.cross b).x = a.y * b.z - a.z * b.y := rfl

@[simp] theorem Vector3.cross_y (a b : Vector3) :
    (a.cross b).y = a.z * b.x - a.x * b.z := rfl

@[simp] theorem Vector3.cross_z (a b : Vector3) :
    (a.cross b).z = a.x * b.y - a.y * b.x := rfl

@[simp] theorem Quaternion.mul_w (a b : Quaternion) :
    (a * b).w = a.w * b.w - a.x * b.x - a.y * b.y - a.z * b.z := rfl

@[simp] theorem Quaternion.mul_x (a b : Quaternion) :
    (a * b).x = a.w * b.x + a.x * b.w + a.y * b.z - a.z * b.y := rfl

@[simp] theorem Quaternion.mul_y (a b : Quaternion) :
    (a * b).y = a.w * b.y + a.y * b.w + a.z * b.x - a.x * b.z := rfl

@[simp] theorem Quaternion.mul_z (a b : Quaternion) :
    (a * b).z = a.w * b.z + a.z * b.w + a.x * b.y - a.y * b.x := rfl

@[simp] theorem Quaternion.neg_qw (q : Quaternion) : (-q).w = -q.w := rfl

@[simp] theorem Quaternion.neg_qx (q : Quaternion) : (-q).x = -q.x := rfl

@[simp] theorem Quaternion.neg_qy (q : Quaternion) : (-q).y = -q.y := rfl

@[simp] theorem Quaternion.neg_qz (q : Quaternion) : (-q).z = -q.z := rfl

@[simp] theorem Quaternion.conjugate_w (q : Quaternion) :
    q.conjugate.w = q.w := rfl

@[simp] theorem Quaternion.conjugate_x (q : Quaternion) :
    q.conjugate.x = -q.x := rfl

@[simp] theorem Quaternion.conjugate_y (q : Quaternion) :
    q.conjugate.y = -q.y := rfl

@[simp] theorem Quaternion.conjugate_z (q : Quaternion) :
    q.conjugate.z = -q.z := rfl

@[simp] theorem Quaternion.im_x (q : Quaternion) : q.im.x = q.x := rfl

@[simp] theorem Quaternion.im_y (q : Quaternion) : q.im.y = q.y := rfl

@[simp] theorem Quaternion.im_z (q : Quaternion) : q.im.z = q.z := rfl

@[simp] theorem rotateVec_x (q : Quaternion) (v : Vector3) :
    (rotateVec q v).x =
      q.w * (2 * (q.y * v.z - q.z * v.y)) +
        (q.y * (2 * (q.x * v.y - q.y * v.x)) -
          q.z * (2 * (q.z * v.x - q.x * v.z))) + v.x := rfl

@[simp] theorem rotateVec_y (q : Quaternion) (v : Vector3) :
    (rotateVec q v).y =
      q.w * (2 * (q.z * v.x - q.x * v.z)) +
        (q.z * (2 * (q.y * v.z - q.z * v.y)) -
          q.x * (2 * (q.x * v.y - q.y * v.x))) + v.y := rfl

@[simp] theorem rotateVec_z (q : Quaternion) (v : Vector3) :
    (rotateVec q v).z =
      q.w * (2 * (q.x * v.y - q.y * v.x)) +
        (q.x * (2 * (q.z * v.x - q.x * v.z)) -
          q.y * (2 * (q.y * v.z - q.z * v.y))) + v.z := rfl

/-- `UnitQuaternion::from_axis_angle(axis, angle)`:
half-angle sine/cosine construction. -/
def fromAxisAngle (axis : Vector3) (angle : ℝ) : Quaternion :=
  ⟨Real.cos (angle / 2), Real.sin (angle / 2) * axis.x,
   Real.sin (angle / 2) * axis.y, Real.sin (angle / 2) * axis.z⟩

/-- `UnitQuaternion::from_euler_angles(roll, pitch, yaw)` (x, then y, then z),
with the closed quaternion formula `nalgebra` uses. -/
def fromEulerAngles (roll pitch yaw : ℝ) : Quaternion :=
  let sr := Real.sin (roll / 2)
  let cr := Real.cos (roll / 2)
  let sp := Real.sin (pitch / 2)
  let cp := Real.cos (pitch / 2)
  let sy := Real.sin (yaw / 2)
  let cy := Real.cos (yaw / 2)
  ⟨cr * cp * cy + sr * sp * sy,
   sr * cp * cy - cr * sp * sy,
   cr * sp * cy + sr * cp * sy,
   cr * cp * sy - sr * sp * cy⟩

/-- `nalgebra::Isometry3<Float>`: a translation plus a rotation quaternion.
The `Unit` wrapper of the source enforces nothing at this access level, so the
rotation is carried as a raw quaternion. -/
structure Isometry3 where
  translation : Vector3
  rotation : Quaternion

/-- `Isometry3::identity()`. -/
def Isometry3.identity : Isometry3 := ⟨⟨0, 0, 0⟩, Quaternion.id⟩

/-- `Isometry3::inverse()`: invert the rotation (conjugate), negate the
translation and rotate it by the inverted rotation. -/
def Isometry3.inverse (iso : Isometry3) : Isometry3 :=
  ⟨rotateVec iso.rotation.conjugate (-iso.translation), iso.rotation.conjugate⟩

/-- `Isometry3::to_homogeneous()`: the 4x4 matrix whose upper-left 3x3 block is
`UnitQuaternion::to_rotation_matrix` (the `ww + ii - jj - kk` form) and whose
last column is the translation. -/
def Isometry3.to_homogeneous (iso : Isometry3) : Matrix (Fin 4) (Fin 4) ℝ :=
  !![iso.rotation.w ^ 2 + iso.rotation.x ^ 2 - iso.rotation.y ^ 2 -
       iso.rotation.z ^ 2,
     2 * iso.rotation.x * iso.rotation.y - 2 * iso.rotation.w * iso.rotation.z,
     2 * iso.rotation.w * iso.rotation.y + 2 * iso.rotation.x * iso.rotation.z,
     iso.translation.x;
     2 * iso.rotation.w * iso.rotation.z + 2 * iso.rotation.x * iso.rotation.y,
     iso.rotation.w ^ 2 - iso.rotation.x ^ 2 + iso.rotation.y ^ 2 -
       iso.rotation.z ^ 2,
     2 * iso.rotation.y * iso.rotation.z - 2 * iso.rotation.w * iso.rotation.x,
     iso.translation.y;
     2 * iso.rotation.x * iso.rotation.z - 2 * iso.rotation.w * iso.rotation.y,
     2 * iso.rotation.w * iso.rotation.x + 2 * iso.rotation.y * iso.rotation.z,
     iso.rotation.w ^ 2 - iso.rotation.x ^ 2 - iso.rotation.y ^ 2 +
       iso.rotation.z ^ 2,
     iso.translation.z;
     0, 0, 0, 1]

/-- `Matrix4::prepend_nonuniform_scaling(scale)`: multiply on the right by the
nonuniform scaling, i.e. scale the first three columns componentwise. -/
def prependNonuniformScaling (m : Matrix (Fin 4) (Fin 4) ℝ) (s : Vector3) :
    Matrix (Fin 4) (Fin 4) ℝ :=
  Matrix.of fun i j => m i j * ![s.x, s.y, s.z, 1] j

/-- `Matrix4::append_nonuniform_scaling(scale)`: multiply on the left by the
nonuniform scaling, i.e. scale the first three rows componentwise. -/
def appendNonuniformScaling (m : Matrix (Fin 4) (Fin 4) ℝ) (s : Vector3) :
    Matrix (Fin 4) (Fin 4) ℝ :=
  Matrix.of fun i j => ![s.x, s.y, s.z, 1] i * m i j

/-- The homogeneous translation matrix of a vector (the `T` factor of the
`T * R * S` decomposition the spec describes). -/
def translationMatrix (t : Vector3) : Matrix (Fin 4) (Fin 4) ℝ :=
  !![1, 0, 0, t.x; 0, 1, 0, t.y; 0, 0, 1, t.z; 0, 0, 0, 1]

/-- The homogeneous rotation matrix of a quaternion, with the entries of
`UnitQuaternion::to_rotation_matrix` (the `R` factor of `T * R * S`). -/
def rotationMatrix (q : Quaternion) : Matrix (Fin 4) (Fin 4) ℝ :=
  !![q.w ^ 2 + q.x ^ 2 - q.y ^ 2 - q.z ^ 2, 2 * q.x * q.y - 2 * q.w * q.z,
       2 * q.w * q.y + 2 * q.x * q.z, 0;
     2 * q.w * q.z + 2 * q.x * q.y, q.w ^ 2 - q.x ^ 2 + q.y ^ 2 - q.z ^ 2,
       2 * q.y * q.z - 2 * q.w * q.x, 0;
     2 * q.x * q.z - 2 * q.w * q.y, 2 * q.w * q.x + 2 * q.y * q.z,
       q.w ^ 2 - q.x ^ 2 - q.y ^ 2 + q.z ^ 2, 0;
     0, 0, 0, 1]

/-- The homogeneous diagonal (possibly non-uniform) scale matrix (the `S`
factor of `T * R * S`). -/
def scaleMatrix (s : Vector3) : Matrix (Fin 4) (Fin 4) ℝ :=
  !![s.x, 0, 0, 0; 0, s.y, 0, 0; 0, 0, s.z, 0; 0, 0, 0, 1]

/-- The `Transform` component: isometry (translation + rotation), scale
vector, and the cached global transformation matrix. -/
structure Transform where
  isometry : Isometry3
  scale : Vector3
  global_matrix : Matrix (Fin 4) (Fin 4) ℝ

/-- `Transform::default()`: identity isometry, unit scale, identity cached
matrix. -/
def Transform.default : Transform :=
  ⟨Isometry3.identity, ⟨1, 1, 1⟩, 1⟩

/-- Accessor `Transform::translation()`. -/
def Transform.translation (t : Transform) : Vector3 :=
  t.isometry.translation

/-- Accessor `Transform::rotation()`. -/
def Transform.rotation (t : Transform) : Quaternion :=
  t.isometry.rotation

/-- `Transform::matrix()`:
`self.isometry.to_homogeneous().prepend_nonuniform_scaling(&self.scale)`. -/
def Transform.matrix (t : Transform) : Matrix (Fin 4) (Fin 4) ℝ :=
  prependNonuniformScaling t.isometry.to_homogeneous t.scale

/-- `Transform::view_matrix()`: homogeneous matrix of the inverted isometry,
with the reciprocal scale appended. -/
def Transform.view_matrix (t : Transform) : Matrix (Fin 4) (Fin 4) ℝ :=
  appendNonuniformScaling t.isometry.inverse.to_homogeneous
    ⟨1 / t.scale.x, 1 / t.scale.y, 1 / t.scale.z⟩

/-- `Transform::face_towards(target, up)`.  The `nalgebra` library function
`UnitQuaternion::face_towards` is external to this repository, so the
embedding takes it as an explicit function argument `face`; the source sets
`rotation = face(translation - target, up)`. -/
def Transform.face_towards (face : Vector3 → Vector3 → Quaternion)
    (t : Transform) (target up : Vector3) : Transform :=
  { t with isometry :=
      { t.isometry with rotation := face (t.isometry.translation - target) up } }

/-- `Transform::prepend_translation`. -/
def Transform.prepend_translation (t : Transform) (translation : Vector3) :
    Transform :=
  { t with isometry :=
      { t.isometry with translation := t.isometry.translation + translation } }

/-- `Transform::append_translation`. -/
def Transform.append_translation (t : Transform) (translation : Vector3) :
    Transform :=
  { t with isometry :=
      { t.isometry with translation :=
          t.isometry.translation + rotateVec t.isometry.rotation translation } }

/-- `Transform::prepend_translation_along`. -/
def Transform.prepend_translation_along (t : Transform)
    (direction : Vector3) (distance : ℝ) : Transform :=
  { t with isometry :=
      { t.isometry with translation :=
          t.isometry.translation + distance • direction } }

/-- `Transform::append_translation_along`. -/
def Transform.append_translation_along (t : Transform)
    (direction : Vector3) (distance : ℝ) : Transform :=
  { t with isometry :=
      { t.isometry with translation :=
          t.isometry.translation +
            distance • rotateVec t.isometry.rotation direction } }

/-- `Transform::move_forward` (sign reversed because z comes towards us). -/
def Transform.move_forward (t : Transform) (amount : ℝ) : Transform :=
  t.append_translation ⟨0, 0, -amount⟩

/-- `Transform::move_backward`. -/
def Transform.move_backward (t : Transform) (amount : ℝ) : Transform :=
  t.append_translation ⟨0, 0, amount⟩

/-- `Transform::move_right`. -/
def Transform.move_right (t : Transform) (amount : ℝ) : Transform :=
  t.append_translation ⟨amount, 0, 0⟩

/-- `Transform::move_left`. -/
def Transform.move_left (t : Transform) (amount : ℝ) : Transform :=
  t.append_translation ⟨-amount, 0, 0⟩

/-- `Transform::move_up`. -/
def Transform.move_up (t : Transform) (amount : ℝ) : Transform :=
  t.append_translation ⟨0, amount, 0⟩

/-- `Transform::move_down`. -/
def Transform.move_down (t : Transform) (amount : ℝ) : Transform :=
  t.append_translation ⟨0, -amount, 0⟩

/-- `Transform::prepend_translation_x`. -/
def Transform.prepend_translation_x (t : Transform) (amount : ℝ) : Transform :=
  { t with isometry :=
      { t.isometry with translation :=
          { t.isometry.translation with
              x := t.isometry.translation.x + amount } } }

/-- `Transform::prepend_translation_y`. -/
def Transform.prepend_translation_y (t : Transform) (amount : ℝ) : Transform :=
  { t with isometry :=
      { t.isometry with translation :=
          { t.isometry.translation with
              y := t.isometry.translation.y + amount } } }

/-- `Transform::prepend_translation_z`. -/
def Transform.prepend_translation_z (t : Transform) (amount : ℝ) : Transform :=
  { t with isometry :=
      { t.isometry with translation :=
          { t.isometry.translation with
              z := t.isometry.translation.z + amount } } }

/-- `Transform::set_translation_x`. -/
def Transform.set_translation_x (t : Transform) (value : ℝ) : Transform :=
  { t with isometry :=
      { t.isometry with translation :=
          { t.isometry.translation with x := value } } }

/-- `Transform::set_translation_y`. -/
def Transform.set_translation_y (t : Transform) (value : ℝ) : Transform :=
  { t with isometry :=
      { t.isometry with translation :=
          { t.isometry.translation with y := value } } }

/-- `Transform::set_translation_z`. -/
def Transform.set_translation_z (t : Transform) (value : ℝ) : Transform :=
  { t with isometry :=
      { t.isometry with translation :=
          { t.isometry.translation with z := value } } }

/-- `Transform::prepend_rotation(axis, angle)`:
`rotation = from_axis_angle(axis, angle) * rotation`. -/
def Transform.prepend_rotation (t : Transform) (axis : Vector3) (angle : ℝ) :
    Transform :=
  { t with isometry :=
      { t.isometry with
          rotation := fromAxisAngle axis angle * t.isometry.rotation } }

/-- `Transform::append_rotation(axis, angle)`:
`rotation = rotation * from_axis_angle(axis, angle)`. -/
def Transform.append_rotation (t : Transform) (axis : Vector3) (angle : ℝ) :
    Transform :=
  { t with isometry :=
      { t.isometry with
          rotation := t.isometry.rotation * fromAxisAngle axis angle } }

/-- `Transform::set_rotation`. -/
def Transform.set_rotation (t : Transform) (rotation : Quaternion) :
    Transform :=
  { t with isometry := { t.isometry with rotation := rotation } }

/-- `Transform::set_rotation_euler(x, y, z)`. -/
def Transform.set_rotation_euler (t : Transform) (x y z : ℝ) : Transform :=
  { t with isometry :=
      { t.isometry with rotation := fromEulerAngles x y z } }

/-- `Transform::prepend_rotation_x_axis`. -/
def Transform.prepend_rotation_x_axis (t : Transform) (delta_angle : ℝ) :
    Transform :=
  t.prepend_rotation Vector3.x_axis delta_angle

/-- `Transform::append_rotation_x_axis`. -/
def Transform.append_rotation_x_axis (t : Transform) (delta_angle : ℝ) :
    Transform :=
  t.append_rotation Vector3.x_axis delta_angle

/-- `Transform::set_rotation_x_axis`. -/
def Transform.set_rotation_x_axis (t : Transform) (angle : ℝ) : Transform :=
  t.set_rotation_euler angle 0 0

/-- `Transform::prepend_rotation_y_axis`. -/
def Transform.prepend_rotation_y_axis (t : Transform) (delta_angle : ℝ) :
    Transform :=
  t.prepend_rotation Vector3.y_axis delta_angle

/-- `Transform::append_rotation_y_axis`. -/
def Transform.append_rotation_y_axis (t : Transform) (delta_angle : ℝ) :
    Transform :=
  t.append_rotation Vector3.y_axis delta_angle

/-- `Transform::set_rotation_y_axis`. -/
def Transform.set_rotation_y_axis (t : Transform) (angle : ℝ) : Transform :=
  t.set_rotation_euler 0 angle 0

/-- `Transform::prepend_rotation_z_axis`: note the source passes
`-Vector3::z_axis()` to `prepend_rotation`. -/
def Transform.prepend_rotation_z_axis (t : Transform) (delta_angle : ℝ) :
    Transform :=
  t.prepend_rotation (-Vector3.z_axis) delta_angle

/-- `Transform::append_rotation_z_axis`: note the source passes
`-Vector3::z_axis()` to `append_rotation`. -/
def Transform.append_rotation_z_axis (t : Transform) (delta_angle : ℝ) :
    Transform :=
  t.append_rotation (-Vector3.z_axis) delta_angle

/-- `Transform::set_rotation_z_axis`. -/
def Transform.set_rotation_z_axis (t : Transform) (angle : ℝ) : Transform :=
  t.set_rotation_euler 0 0 angle

/-- `Transform::rotate_2d`. -/
def Transform.rotate_2d (t : Transform) (delta_angle : ℝ) : Transform :=
  t.prepend_rotation_z_axis delta_angle

/-- `Transform::set_rotation_2d`. -/
def Transform.set_rotation_2d (t : Transform) (angle : ℝ) : Transform :=
  t.set_rotation_euler 0 0 angle

/-- `Transform::set_translation`. -/
def Transform.set_translation (t : Transform) (position : Vector3) :
    Transform :=
  { t with isometry := { t.isometry with translation := position } }

/-- `Transform::append_translation_xyz`. -/
def Transform.append_translation_xyz (t : Transform) (x y z : ℝ) : Transform :=
  t.append_translation ⟨x, y, z⟩

/-- `Transform::set_translation_xyz`. -/
def Transform.set_translation_xyz (t : Transform) (x y z : ℝ) : Transform :=
  t.set_translation ⟨x, y, z⟩

/-- `Transform::concat(other)`: translation first (using the not yet updated
rotation and scale), then scale, then rotation. -/
def Transform.concat (t other : Transform) : Transform :=
  { t with
    isometry :=
      ⟨t.isometry.translation +
          rotateVec t.isometry.rotation
            (other.isometry.translation.component_mul t.scale),
        t.isometry.rotation * other.isometry.rotation⟩,
    scale := t.scale.component_mul other.scale }

/-!
Serde model.  `Transform` serializes to three fields — `translation` (3
numbers), `rotation` (4 numbers in x, y, z, w order), `scale` (3 numbers) —
and deserializes through `TransformVisitor` either from a sequence
(positional) or from a map (keyed, order independent, duplicates rejected).
-/

/-- The field identifier enum of the deserializer. -/
inductive FieldId where
  | translation
  | rotation
  | scale
deriving DecidableEq

/-- One key/value pair of a mapping representation: a field identifier
together with its array payload (3 numbers for translation and scale,
4 for rotation). -/
inductive Entry where
  | translation (v : Fin 3 → ℝ)
  | rotation (v : Fin 4 → ℝ)
  | scale (v : Fin 3 → ℝ)

/-- The field identifier of an entry. -/
def Entry.tag : Entry → FieldId
  | .translation _ => .translation
  | .rotation _ => .rotation
  | .scale _ => .scale

/-- Deserialization faults of the visitor that the claims mention. -/
inductive DeError where
  | duplicate_field (f : FieldId)

/-- Common constructor used by both visitor arms: build the isometry from the
translation array and `Unit::new_normalize(Quaternion::new(r[3], r[0], r[1],
r[2]))`, keep the scale array, and fill the remaining field from
`Default::default()` (identity `global_matrix`). -/
def buildTransform (translation : Fin 3 → ℝ) (rotation : Fin 4 → ℝ)
    (scale : Fin 3 → ℝ) : Transform :=
  { isometry :=
      ⟨⟨translation 0, translation 1, translation 2⟩,
        Quaternion.normalize
          ⟨rotation 3, rotation 0, rotation 1, rotation 2⟩⟩,
    scale := ⟨scale 0, scale 1, scale 2⟩,
    global_matrix := 1 }

/-- `TransformVisitor::visit_seq`, success path: the three positional
elements present with the right arities. -/
def visit_seq (translation : Fin 3 → ℝ) (rotation : Fin 4 → ℝ)
    (scale : Fin 3 → ℝ) : Transform :=
  buildTransform translation rotation scale

/-- The key-processing loop of `TransformVisitor::visit_map`: fold over the
entries, rejecting a field that was already seen. -/
def visitMapLoop :
    List Entry → Option (Fin 3 → ℝ) → Option (Fin 4 → ℝ) →
      Option (Fin 3 → ℝ) →
      Except DeError
        (Option (Fin 3 → ℝ) × Option (Fin 4 → ℝ) × Option (Fin 3 → ℝ))
  | [], t, r, s => .ok (t, r, s)
  | .translation v :: rest, t, r, s =>
      if t.isSome then .error (.duplicate_field .translation)
      else visitMapLoop rest (some v) r s
  | .rotation v :: rest, t, r, s =>
      if r.isSome then .error (.duplicate_field .rotation)
      else visitMapLoop rest t (some v) s
  | .scale v :: rest, t, r, s =>
      if s.isSome then .error (.duplicate_field .scale)
      else visitMapLoop rest t r (some v)

/-- `TransformVisitor::visit_map`: run the key loop from the empty state,
then substitute the documented defaults for absent fields — translation
`[0, 0, 0]`, rotation `[1, 0, 0, 0]` (the array the source writes in
`unwrap_or`), scale `[1, 1, 1]` — and build the transform. -/
def visit_map (entries : List Entry) : Except DeError Transform :=
  match visitMapLoop entries none none none with
  | .error e => .error e
  | .ok (t, r, s) =>
      .ok (buildTransform (t.getD ![0, 0, 0]) (r.getD ![1, 0, 0, 0])
        (s.getD ![1, 1, 1]))

/-- `Serialize for Transform`: the three arrays, with the rotation written in
coordinate order `(x, y, z, w)` (`rotation.as_ref().coords`). -/
def serialize (t : Transform) :
    (Fin 3 → ℝ) × (Fin 4 → ℝ) × (Fin 3 → ℝ) :=
  (![t.translation.x, t.translation.y, t.translation.z],
   ![t.rotation.x, t.rotation.y, t.rotation.z, t.rotation.w],
   ![t.scale.x, t.scale.y, t.scale.z])

/-- Whether a deserialization result is a success. -/
def exceptIsOk : Except DeError Transform → Bool
  | .ok _ => true
  | .error _ => false

/-- How many entries of a list carry the given field identifier. -/
def countTag (f : FieldId) : List Entry → ℕ
  | [] => 0
  | e :: rest => (if e.tag = f then 1 else 0) + countTag f rest

/-- How many of the three accumulator slots of the visitor loop already hold
the given field. -/
def stateCount (f : FieldId) (t : Option (Fin 3 → ℝ)) (r : Option (Fin 4 → ℝ))
    (s : Option (Fin 3 → ℝ)) : ℕ :=
  match f with
  | .translation => if t.isSome then 1 else 0
  | .rotation => if r.isSome then 1 else 0
  | .scale => if s.isSome then 1 else 0

/-!
Helper lemmas.
-/

theorem prependNonuniformScaling_eq (m : Matrix (Fin 4) (Fin 4) ℝ)
    (s : Vector3) : prependNonuniformScaling m s = m * scaleMatrix s := by
  ext i j
  fin_cases j <;>
    simp [prependNonuniformScaling, scaleMatrix, Matrix.mul_apply,
      Fin.sum_univ_four, Matrix.vecHead, Matrix.vecTail]

theorem appendNonuniformScaling_eq (m : Matrix (Fin 4) (Fin 4) ℝ)
    (s : Vector3) : appendNonuniformScaling m s = scaleMatrix s * m := by
  ext i j
  fin_cases i <;>
    simp [appendNonuniformScaling, scaleMatrix, Matrix.mul_apply,
      Fin.sum_univ_four, Matrix.vecHead, Matrix.vecTail]

theorem to_homogeneous_eq (iso : Isometry3) :
    iso.to_homogeneous =
      translationMatrix iso.translation * rotationMatrix iso.rotation := by
  ext i j
  fin_cases i <;> fin_cases j <;>
    simp [Isometry3.to_homogeneous, translationMatrix, rotationMatrix,
      Matrix.mul_apply, Fin.sum_univ_four, Matrix.vecHead, Matrix.vecTail]

theorem homog_inverse_mul (iso : Isometry3)
    (h : iso.rotation.w ^ 2 + iso.rotation.x ^ 2 + iso.rotation.y ^ 2 +
      iso.rotation.z ^ 2 = 1) :
    iso.inverse.to_homogeneous * iso.to_homogeneous = 1 := by
  ext i j
  fin_cases i <;> fin_cases j <;>
    simp [Isometry3.inverse, Isometry3.to_homogeneous, Matrix.mul_apply,
      Fin.sum_univ_four, Matrix.vecHead, Matrix.vecTail, Matrix.one_apply] <;>
    first
      | ring1
      | linear_combination (iso.rotation.w ^ 2 + iso.rotation.x ^ 2 +
          iso.rotation.y ^ 2 + iso.rotation.z ^ 2 + 1) * h
      | linear_combination iso.translation.x * h
      | linear_combination iso.translation.y * h
      | linear_combination iso.translation.z * h

theorem scaleMatrix_inv_mul (s : Vector3) (hx : s.x ≠ 0) (hy : s.y ≠ 0)
    (hz : s.z ≠ 0) :
    scaleMatrix ⟨1 / s.x, 1 / s.y, 1 / s.z⟩ * scaleMatrix s = 1 := by
  ext i j
  fin_cases i <;> fin_cases j <;>
    simp [scaleMatrix, Matrix.mul_apply, Fin.sum_univ_four, Matrix.vecHead,
      Matrix.vecTail, Matrix.one_apply] <;>
    field_simp

theorem normalize_of_unit (q : Quaternion) (h : q.normSq = 1) :
    q.normalize = q := by
  simp [Quaternion.normalize, h]

theorem fromAxisAngle_neg_z_axis (a : ℝ) :
    fromAxisAngle (-Vector3.z_axis) a = fromAxisAngle Vector3.z_axis (-a) := by
  simp [fromAxisAngle, Vector3.z_axis, neg_div, Real.cos_neg, Real.sin_neg]

theorem stateCount_le_one (f : FieldId) (t : Option (Fin 3 → ℝ))
    (r : Option (Fin 4 → ℝ)) (s : Option (Fin 3 → ℝ)) :
    stateCount f t r s ≤ 1 := by
  cases f <;> dsimp [stateCount] <;> split <;> norm_num

theorem visitMapLoop_dup (f : FieldId) :
    ∀ (l : List Entry) (t : Option (Fin 3 → ℝ)) (r : Option (Fin 4 → ℝ))
      (s : Option (Fin 3 → ℝ)),
      2 ≤ countTag f l + stateCount f t r s →
      ∃ e, visitMapLoop l t r s = .error e := by
  intro l
  induction l with
  | nil =>
      intro t r s h
      exact absurd h
        (by
          have := stateCount_le_one f t r s
          simp only [countTag]
          omega)
  | cons e rest ih =>
      intro t r s h
      cases e with
      | translation v =>
          by_cases ht : t.isSome
          · exact ⟨.duplicate_field .translation, by simp [visitMapLoop, ht]⟩
          · have hstep : visitMapLoop (Entry.translation v :: rest) t r s =
                visitMapLoop rest (some v) r s := by simp [visitMapLoop, ht]
            rw [hstep]
            apply ih
            have h1 := stateCount_le_one f t r s
            cases f <;>
              simp [countTag, Entry.tag, stateCount, ht] at h h1 ⊢ <;>
              omega
      | rotation v =>
          by_cases hr : r.isSome
          · exact ⟨.duplicate_field .rotation, by simp [visitMapLoop, hr]⟩
          · have hstep : visitMapLoop (Entry.rotation v :: rest) t r s =
                visitMapLoop rest t (some v) s := by simp [visitMapLoop, hr]
            rw [hstep]
            apply ih
            have h1 := stateCount_le_one f t r s
            cases f <;>
              simp [countTag, Entry.tag, stateCount, hr] at h h1 ⊢ <;>
              omega
      | scale v =>
          by_cases hs : s.isSome
          · exact ⟨.duplicate_field .scale, by simp [visitMapLoop, hs]⟩
          · have hstep : visitMapLoop (Entry.scale v :: rest) t r s =
                visitMapLoop rest t r (some v) := by simp [visitMapLoop, hs]
            rw [hstep]
            apply ih
            have h1 := stateCount_le_one f t r s
            cases f <;>
              simp [countTag, Entry.tag, stateCount, hs] at h h1 ⊢ <;>
              omega

/-!
Claim theorems.
-/

/-- C5: for every transform, `matrix()` returns the homogeneous matrix
`T * R * S` (translation times rotation times diagonal scale), and
consequently `matrix(Transform::default())` is the 4x4 identity matrix. -/
theorem C5_matrix_is_trs :
    (∀ t : Transform,
      t.matrix =
        translationMatrix t.translation * rotationMatrix t.rotation *
          scaleMatrix t.scale) ∧
    Transform.default.matrix = 1 := by
  constructor
  · intro t
    rw [Transform.matrix, prependNonuniformScaling_eq, to_homogeneous_eq]
    rfl
  · ext i j
    fin_cases i <;> fin_cases j <;>
      simp [Transform.matrix, Transform.default, Isometry3.identity,
        Quaternion.id, prependNonuniformScaling, Isometry3.to_homogeneous,
        Matrix.one_apply, Matrix.vecHead, Matrix.vecTail]

/-- C6: `prepend_translation(v)` adds the raw vector to the translation;
`append_translation(v)` adds the vector rotated by the current rotation;
`prepend_rotation` left-multiplies the rotation quaternion by the delta
quaternion; `append_rotation` right-multiplies it. -/
theorem C6_prepend_append_semantics :
    (∀ (t : Transform) (v : Vector3),
      (t.prepend_translation v).translation = t.translation + v) ∧
    (∀ (t : Transform) (v : Vector3),
      (t.append_translation v).translation =
        t.translation + rotateVec t.rotation v) ∧
    (∀ (t : Transform) (axis : Vector3) (angle : ℝ),
      (t.prepend_rotation axis angle).rotation =
        fromAxisAngle axis angle * t.rotation) ∧
    (∀ (t : Transform) (axis : Vector3) (angle : ℝ),
      (t.append_rotation axis angle).rotation =
        t.rotation * fromAxisAngle axis angle) :=
  ⟨fun _ _ => rfl, fun _ _ => rfl, fun _ _ _ => rfl, fun _ _ _ => rfl⟩

/-- C9: no mutating algebra operation of `Transform` ever changes the cached
`global_matrix` field: after any of them, the cached matrix equals the one
before the call.  (`face_towards` is quantified over every possible external
rotation-construction function.) -/
theorem C9_global_matrix_never_written :
    (∀ (face : Vector3 → Vector3 → Quaternion) (t : Transform)
      (target up : Vector3),
      (t.face_towards face target up).global_matrix = t.global_matrix) ∧
    (∀ (t : Transform) (v : Vector3),
      (t.prepend_translation v).global_matrix = t.global_matrix) ∧
    (∀ (t : Transform) (v : Vector3),
      (t.append_translation v).global_matrix = t.global_matrix) ∧
    (∀ (t : Transform) (d : Vector3) (a : ℝ),
      (t.prepend_translation_along d a).global_matrix = t.global_matrix) ∧
    (∀ (t : Transform) (d : Vector3) (a : ℝ),
      (t.append_translation_along d a).global_matrix = t.global_matrix) ∧
    (∀ (t : Transform) (a : ℝ),
      (t.move_forward a).global_matrix = t.global_matrix) ∧
    (∀ (t : Transform) (a : ℝ),
      (t.move_backward a).global_matrix = t.global_matrix) ∧
    (∀ (t : Transform) (a : ℝ),
      (t.move_right a).global_matrix = t.global_matrix) ∧
    (∀ (t : Transform) (a : ℝ),
      (t.move_left a).global_matrix = t.global_matrix) ∧
    (∀ (t : Transform) (a : ℝ),
      (t.move_up a).global_matrix = t.global_matrix) ∧
    (∀ (t : Transform) (a : ℝ),
      (t.move_down a).global_matrix = t.global_matrix) ∧
    (∀ (t : Transform) (a : ℝ),
      (t.prepend_translation_x a).global_matrix = t.global_matrix) ∧
    (∀ (t : Transform) (a : ℝ),
      (t.prepend_translation_y a).global_matrix = t.global_matrix) ∧
    (∀ (t : Transform) (a : ℝ),
      (t.prepend_translation_z a).global_matrix = t.global_matrix) ∧
    (∀ (t : Transform) (a : ℝ),
      (t.set_translation_x a).global_matrix = t.global_matrix) ∧
    (∀ (t : Transform) (a : ℝ),
      (t.set_translation_y a).global_matrix = t.global_matrix) ∧
    (∀ (t : Transform) (a : ℝ),
      (t.set_translation_z a).global_matrix = t.global_matrix) ∧
    (∀ (t : Transform) (a : ℝ),
      (t.prepend_rotation_x_axis a).global_matrix = t.global_matrix) ∧
    (∀ (t : Transform) (a : ℝ),
      (t.append_rotation_x_axis a).global_matrix = t.global_matrix) ∧
    (∀ (t : Transform) (a : ℝ),
      (t.set_rotation_x_axis a).global_matrix = t.global_matrix) ∧
    (∀ (t : Transform) (a : ℝ),
      (t.prepend_rotation_y_axis a).global_matrix = t.global_matrix) ∧
    (∀ (t : Transform) (a : ℝ),
      (t.append_rotation_y_axis a).global_matrix = t.global_matrix) ∧
    (∀ (t : Transform) (a : ℝ),
      (t.set_rotation_y_axis a).global_matrix = t.global_matrix) ∧
    (∀ (t : Transform) (a : ℝ),
      (t.prepend_rotation_z_axis a).global_matrix = t.global_matrix) ∧
    (∀ (t : Transform) (a : ℝ),
      (t.append_rotation_z_axis a).global_matrix = t.global_matrix) ∧
    (∀ (t : Transform) (a : ℝ),
      (t.set_rotation_z_axis a).global_matrix = t.global_matrix) ∧
    (∀ (t : Transform) (a : ℝ),
      (t.rotate_2d a).global_matrix = t.global_matrix) ∧
    (∀ (t : Transform) (a : ℝ),
      (t.set_rotation_2d a).global_matrix = t.global_matrix) ∧
    (∀ (t : Transform) (axis : Vector3) (a : ℝ),
      (t.prepend_rotation axis a).global_matrix = t.global_matrix) ∧
    (∀ (t : Transform) (axis : Vector3) (a : ℝ),
      (t.append_rotation axis a).global_matrix = t.global_matrix) ∧
    (∀ (t : Transform) (v : Vector3),
      (t.set_translation v).global_matrix = t.global_matrix) ∧
    (∀ (t : Transform) (x y z : ℝ),
      (t.append_translation_xyz x y z).global_matrix = t.global_matrix) ∧
    (∀ (t : Transform) (x y z : ℝ),
      (t.set_translation_xyz x y z).global_matrix = t.global_matrix) ∧
    (∀ (t : Transform) (q : Quaternion),
      (t.set_rotation q).global_matrix = t.global_matrix) ∧
    (∀ (t : Transform) (x y z : ℝ),
      (t.set_rotation_euler x y z).global_matrix = t.global_matrix) ∧
    (∀ (t other : Transform),
      (t.concat other).global_matrix = t.global_matrix) := by
  repeat' apply And.intro
  all_goals intros
  all_goals rfl

/-- C1 (code bug): deserializing an empty mapping takes the default path for
all three fields; translation and scale do default to the values of
`Transform::default()`, but the rotation array default `[1, 0, 0, 0]` is
parsed in `(x, y, z, w)` component order, so the resulting quaternion is
`(w, x, y, z) = (0, 1, 0, 0)` — a half-turn about the x axis — and not the
identity rotation `(0, 0, 0, 1)` the claim states. -/
theorem C1_empty_map_rotation_not_identity :
    (visit_map []).map Transform.rotation =
      Except.ok (⟨0, 1, 0, 0⟩ : Quaternion) ∧
    (⟨0, 1, 0, 0⟩ : Quaternion) ≠ Transform.default.rotation ∧
    (visit_map []).map Transform.translation =
      Except.ok Transform.default.translation ∧
    (visit_map []).map Transform.scale =
      Except.ok Transform.default.scale := by
  refine ⟨?_, ?_, rfl, rfl⟩
  · show Except.ok (buildTransform ![0, 0, 0] ![1, 0, 0, 0]
      ![1, 1, 1]).rotation = _
    simp [buildTransform, Transform.rotation, Quaternion.normalize,
      Quaternion.normSq]
  · intro h
    have := congrArg Quaternion.w h
    simp [Transform.default, Isometry3.identity, Quaternion.id,
      Transform.rotation] at this

/-- C10: every successful deserialization — positional (sequence) form or
mapping form — produces a transform whose `global_matrix` is the 4x4
identity, whatever the input was; the cache is never round-tripped. -/
theorem C10_deserialized_global_matrix_is_identity :
    (∀ (translation : Fin 3 → ℝ) (rotation : Fin 4 → ℝ) (scale : Fin 3 → ℝ),
      (visit_seq translation rotation scale).global_matrix = 1) ∧
    (∀ (entries : List Entry) (t : Transform),
      visit_map entries = Except.ok t → t.global_matrix = 1) := by
  refine ⟨fun _ _ _ => rfl, ?_⟩
  intro entries t h
  rw [visit_map] at h
  cases hl : visitMapLoop entries none none none with
  | error e => rw [hl] at h; exact absurd h (by simp)
  | ok v =>
      obtain ⟨t?, r?, s?⟩ := v
      rw [hl] at h
      simp only [Except.ok.injEq] at h
      subst h
      rfl

/-- C10 witness: deserializing the empty mapping succeeds and the resulting
transform's cached matrix is the identity. -/
theorem C10_deserialized_global_matrix_is_identity_witness :
    (buildTransform ![0, 0, 0] ![1, 0, 0, 0] ![1, 1, 1]).global_matrix = 1 :=
  C10_deserialized_global_matrix_is_identity.2 [] _ rfl

/-- C8: deserializing a mapping in which some field occurs at least twice
fails with a format error: the deserializer does not return a transform. -/
theorem C8_duplicate_field_is_error (l : List Entry) (f : FieldId)
    (h : 2 ≤ countTag f l) : exceptIsOk (visit_map l) = false := by
  obtain ⟨e, he⟩ :=
    visitMapLoop_dup f l none none none
      (by cases f <;> simpa [stateCount] using h)
  rw [visit_map, he]
  rfl

/-- C8 witness: a mapping repeating the `translation` field is rejected. -/
theorem C8_duplicate_field_is_error_witness :
    exceptIsOk (visit_map
      [Entry.translation ![0, 0, 0], Entry.translation ![0, 0, 0]]) = false :=
  C8_duplicate_field_is_error _ FieldId.translation
    (by norm_num [countTag, Entry.tag])

/-- C7: for every transform whose rotation quaternion is unit (the data-model
invariant), deserializing the serialized form — through the sequence arm or
through the mapping arm — returns exactly the same translation and scale, and
a rotation quaternion equal to the original up to sign (here: exactly). -/
theorem C7_serialize_roundtrip (t : Transform) (h : t.rotation.normSq = 1) :
    (visit_seq (serialize t).1 (serialize t).2.1
        (serialize t).2.2).translation = t.translation ∧
    (visit_seq (serialize t).1 (serialize t).2.1 (serialize t).2.2).scale =
      t.scale ∧
    ((visit_seq (serialize t).1 (serialize t).2.1
        (serialize t).2.2).rotation = t.rotation ∨
      (visit_seq (serialize t).1 (serialize t).2.1
        (serialize t).2.2).rotation = -t.rotation) ∧
    visit_map [Entry.translation (serialize t).1,
        Entry.rotation (serialize t).2.1, Entry.scale (serialize t).2.2] =
      Except.ok
        (visit_seq (serialize t).1 (serialize t).2.1 (serialize t).2.2) := by
  refine ⟨rfl, rfl, Or.inl ?_, rfl⟩
  exact normalize_of_unit t.rotation h

/-- C7 witness: the default transform round-trips; its translation is
preserved. -/
theorem C7_serialize_roundtrip_witness :
    (visit_seq (serialize Transform.default).1 (serialize Transform.default).2.1
        (serialize Transform.default).2.2).translation =
      Transform.default.translation :=
  (C7_serialize_roundtrip Transform.default
    (by norm_num [Quaternion.normSq, Transform.rotation, Transform.default,
      Isometry3.identity, Quaternion.id])).1

/-- C3: for every transform with non-zero scale components and unit rotation
quaternion, `view_matrix()` is the matrix inverse of `matrix()`:
their product (in both orders) is the 4x4 identity. -/
theorem C3_view_matrix_is_inverse (t : Transform)
    (hx : t.scale.x ≠ 0) (hy : t.scale.y ≠ 0) (hz : t.scale.z ≠ 0)
    (h : t.rotation.normSq = 1) :
    t.view_matrix * t.matrix = 1 ∧ t.matrix * t.view_matrix = 1 := by
  have h1 : t.view_matrix * t.matrix = 1 := by
    simp only [Quaternion.normSq, Transform.rotation] at h
    rw [Transform.view_matrix, Transform.matrix, appendNonuniformScaling_eq,
      prependNonuniformScaling_eq, mul_assoc,
      ← mul_assoc t.isometry.inverse.to_homogeneous,
      homog_inverse_mul t.isometry h, one_mul,
      scaleMatrix_inv_mul t.scale hx hy hz]
  exact ⟨h1, Matrix.mul_eq_one_comm.mp h1⟩

/-- C3 witness: at the default transform the view matrix inverts the local
matrix. -/
theorem C3_view_matrix_is_inverse_witness :
    Transform.default.view_matrix * Transform.default.matrix = 1 :=
  (C3_view_matrix_is_inverse Transform.default
    (by norm_num [Transform.default]) (by norm_num [Transform.default])
    (by norm_num [Transform.default])
    (by norm_num [Quaternion.normSq, Transform.rotation, Transform.default,
      Isometry3.identity, Quaternion.id])).1

/-- C4: for transforms `a` and `b` with uniform (equal-component) scales and
unit rotation quaternions, the matrix of `a.concat(b)` is the matrix product
`matrix(a) * matrix(b)`. -/
theorem C4_concat_matrix_homomorphism (a b : Transform)
    (hax : a.scale.x = a.scale.y) (hay : a.scale.y = a.scale.z)
    (hbx : b.scale.x = b.scale.y) (hby : b.scale.y = b.scale.z)
    (ha : a.rotation.normSq = 1) (hb : b.rotation.normSq = 1) :
    (a.concat b).matrix = a.matrix * b.matrix := by
  simp only [Quaternion.normSq, Transform.rotation] at ha hb
  ext i j
  fin_cases i <;> fin_cases j <;>
    simp [Transform.concat, Transform.matrix, prependNonuniformScaling,
      Isometry3.to_homogeneous, Matrix.mul_apply, Fin.sum_univ_four,
      Matrix.vecHead, Matrix.vecTail, ← hax, ← hay] <;>
    first
      | ring1
      | linear_combination (a.scale.x * b.isometry.translation.x) * ha
      | linear_combination (a.scale.x * b.isometry.translation.y) * ha
      | linear_combination (a.scale.x * b.isometry.translation.z) * ha
      | linear_combination (-(a.scale.x * b.isometry.translation.x)) * ha
      | linear_combination (-(a.scale.x * b.isometry.translation.y)) * ha
      | linear_combination (-(a.scale.x * b.isometry.translation.z)) * ha

/-- C4 witness: the law holds at a pair of default transforms. -/
theorem C4_concat_matrix_homomorphism_witness :
    (Transform.default.concat Transform.default).matrix =
      Transform.default.matrix * Transform.default.matrix :=
  C4_concat_matrix_homomorphism Transform.default Transform.default
    (by norm_num [Transform.default]) (by norm_num [Transform.default])
    (by norm_num [Transform.default]) (by norm_num [Transform.default])
    (by norm_num [Quaternion.normSq, Transform.rotation, Transform.default,
      Isometry3.identity, Quaternion.id])
    (by norm_num [Quaternion.normSq, Transform.rotation, Transform.default,
      Isometry3.identity, Quaternion.id])

/-- C2 counterexample: starting from the default transform with angle pi/2,
the z-axis wrappers do not produce the rotation of
`prepend_rotation(Vector3::z_axis(), angle)` /
`append_rotation(Vector3::z_axis(), angle)`: the quaternions differ and they
rotate the x axis to opposite sides. -/
theorem C2_z_axis_wrapper_counterexample :
    (Transform.default.prepend_rotation_z_axis (Real.pi / 2)).rotation ≠
      (Transform.default.prepend_rotation Vector3.z_axis
        (Real.pi / 2)).rotation ∧
    rotateVec
        ((Transform.default.prepend_rotation_z_axis (Real.pi / 2)).rotation)
        ⟨1, 0, 0⟩ ≠
      rotateVec
        ((Transform.default.prepend_rotation Vector3.z_axis
          (Real.pi / 2)).rotation) ⟨1, 0, 0⟩ ∧
    (Transform.default.append_rotation_z_axis (Real.pi / 2)).rotation ≠
      (Transform.default.append_rotation Vector3.z_axis
        (Real.pi / 2)).rotation := by
  have hangle : Real.pi / 2 / 2 = Real.pi / 4 := by ring
  have h2 : Real.sqrt 2 * Real.sqrt 2 = 2 := Real.mul_self_sqrt (by norm_num)
  have hpos : 0 < Real.sqrt 2 := Real.sqrt_pos.mpr (by norm_num)
  have e1 : (Transform.default.prepend_rotation_z_axis
      (Real.pi / 2)).rotation =
      ⟨Real.sqrt 2 / 2, 0, 0, -(Real.sqrt 2 / 2)⟩ := by
    ext <;>
      simp [Transform.prepend_rotation_z_axis, Transform.prepend_rotation,
        Transform.rotation, Transform.default, Isometry3.identity,
        Quaternion.id, fromAxisAngle, Vector3.z_axis, hangle,
        Real.sin_pi_div_four, Real.cos_pi_div_four]
  have e2 : (Transform.default.prepend_rotation Vector3.z_axis
      (Real.pi / 2)).rotation =
      ⟨Real.sqrt 2 / 2, 0, 0, Real.sqrt 2 / 2⟩ := by
    ext <;>
      simp [Transform.prepend_rotation, Transform.rotation, Transform.default,
        Isometry3.identity, Quaternion.id, fromAxisAngle, Vector3.z_axis,
        hangle, Real.sin_pi_div_four, Real.cos_pi_div_four]
  have e3 : (Transform.default.append_rotation_z_axis
      (Real.pi / 2)).rotation =
      ⟨Real.sqrt 2 / 2, 0, 0, -(Real.sqrt 2 / 2)⟩ := by
    ext <;>
      simp [Transform.append_rotation_z_axis, Transform.append_rotation,
        Transform.rotation, Transform.default, Isometry3.identity,
        Quaternion.id, fromAxisAngle, Vector3.z_axis, hangle,
        Real.sin_pi_div_four, Real.cos_pi_div_four]
  have e4 : (Transform.default.append_rotation Vector3.z_axis
      (Real.pi / 2)).rotation =
      ⟨Real.sqrt 2 / 2, 0, 0, Real.sqrt 2 / 2⟩ := by
    ext <;>
      simp [Transform.append_rotation, Transform.rotation, Transform.default,
        Isometry3.identity, Quaternion.id, fromAxisAngle, Vector3.z_axis,
        hangle, Real.sin_pi_div_four, Real.cos_pi_div_four]
  refine ⟨?_, ?_, ?_⟩
  · rw [e1, e2]
    intro hq
    have hz := congrArg Quaternion.z hq
    simp only at hz
    linarith
  · rw [e1, e2]
    intro hv
    have hyc := congrArg Vector3.y hv
    simp only [rotateVec_y] at hyc
    nlinarith [h2]
  · rw [e3, e4]
    intro hq
    have hz := congrArg Quaternion.z hq
    simp only at hz
    linarith

/-- C2 amended: the z-axis convenience wrappers rotate about the negative
z axis: for every transform and angle, `prepend_rotation_z_axis(a)` equals
`prepend_rotation(-z_axis, a)`, equivalently `prepend_rotation(z_axis, -a)`,
and likewise for the append variant. -/
theorem C2_z_axis_wrappers_amended :
    ∀ (t : Transform) (a : ℝ),
      t.prepend_rotation_z_axis a = t.prepend_rotation (-Vector3.z_axis) a ∧
      t.prepend_rotation_z_axis a = t.prepend_rotation Vector3.z_axis (-a) ∧
      t.append_rotation_z_axis a = t.append_rotation (-Vector3.z_axis) a ∧
      t.append_rotation_z_axis a = t.append_rotation Vector3.z_axis (-a) := by
  intro t a
  refine ⟨rfl, ?_, rfl, ?_⟩
  · unfold Transform.prepend_rotation_z_axis Transform.prepend_rotation
    rw [fromAxisAngle_neg_z_axis]
  · unfold Transform.append_rotation_z_axis Transform.append_rotation
    rw [fromAxisAngle_neg_z_axis]

end

end Amethyst
